import Mathlib

/-!
Shallow embedding of `fooocusapi/utils/file_utils.py` (Fooocus-API fork),
the artifact-lifecycle core described by the spec: local persistence
(`save_output_file`), deletion (`delete_output_file`), remote upload
(`upload_to_minio`), read-back conversions (`output_file_to_base64img`,
`output_file_to_bytesimg`) and URL derivations (`get_file_serve_url`,
`get_file_s3_url`).

Modelling conventions:
- The local filesystem is an association list from absolute POSIX paths to
  file contents (`FS`); membership models "`os.path.exists` and
  `os.path.isfile`" (only regular files are modelled).
- `datetime.datetime.now().strftime("%Y-%m-%d")` is an explicit `today`
  parameter (an environment input of each call).
- The module-level global `output_dir` is an explicit `outputDir` parameter.
- Python string primitives used by the source (`str.split`, `str.join`,
  `os.path.join`, `startswith`) are modelled character-exactly below.
- External libraries (PIL encoding, base64) are abstract function
  parameters: `pilEncode fmt bytes` models `PIL.Image.save(format=fmt)`
  on the decoded file contents, `b64encode` models
  `base64.b64encode(...).decode("utf-8")`.
- Exceptions are `Except`; the S3 client's behaviour is an `S3Outcome`
  input abstracting the network.
-/

namespace FileUtils

/-- File contents as a byte list. -/
abbrev Bytes := List Nat

/-- Abstract pixel buffer standing for `np.ndarray`. -/
structure NDArray where
  pixels : List Nat
deriving DecidableEq

/-- The dynamically checked `np.ndarray | str` union taken by
`save_output_file`, as a tagged variant. -/
inductive ImgInput where
  | path (p : String)
  | buffer (img : NDArray)
deriving DecidableEq

/-- A local filesystem: finite map from paths to contents of regular files. -/
abbrev FS := List (String × Bytes)

/-- Look up the contents of a regular file at a path. -/
def fsLookup : FS → String → Option Bytes
  | [], _ => none
  | (k, v) :: rest, p => if k = p then some v else fsLookup rest p

/-- Remove the regular file at a path (models `os.remove`'s effect). -/
def fsErase : FS → String → FS
  | [], _ => []
  | (k, v) :: rest, p =>
      if k = p then fsErase rest p else (k, v) :: fsErase rest p

/-- Create or overwrite the regular file at a path. -/
def fsInsert (fs : FS) (p : String) (b : Bytes) : FS :=
  (p, b) :: fsErase fs p

/-- Python `s.startswith('/')`. -/
def startsWithSlash (s : String) : Bool :=
  match s.data with
  | [] => false
  | c :: _ => c = '/'

/-- Python `s.endswith('/')`. -/
def endsWithSlash (s : String) : Bool :=
  match s.data.getLast? with
  | some c => c = '/'
  | none => false

/-- POSIX `os.path.join(a, b)`: if `b` is absolute it wins; otherwise a
separator is inserted unless `a` is empty or already ends in one. -/
def os_path_join (a b : String) : String :=
  if startsWithSlash b then b
  else if a = "" then b
  else if endsWithSlash a then a ++ b
  else a ++ "/" ++ b

/-- Python `str.split(sep)` on a character list: splits at every occurrence
of `sep`, keeping empty segments; the empty input yields `[[]]`. -/
def splitCharList (sep : Char) : List Char → List (List Char)
  | [] => [[]]
  | c :: cs =>
    let r := splitCharList sep cs
    if c = sep then [] :: r
    else
      match r with
      | [] => [[c]]
      | h :: t => (c :: h) :: t

/-- Python `s.split(sep)` for a one-character separator. -/
def pySplit (sep : Char) (s : String) : List String :=
  (splitCharList sep s.data).map String.mk

/-- Python `sep.join(parts)`. -/
def pyJoin (sep : String) : List String → String
  | [] => ""
  | [x] => x
  | x :: xs => x ++ sep ++ pyJoin sep xs

/-- Python `parts[-1]` on the (never empty) result of `str.split`. -/
def lastSeg (l : List String) : String := l.getLastD ""

/-- Python `parts[-2:]`. -/
def takeLast2 {α : Type} (l : List α) : List α := l.drop (l.length - 2)

/-- Python `s.lower()` (ASCII case mapping, the range the code relies on). -/
def pyLower (s : String) : String := String.mk (s.data.map Char.toLower)

/-- Python `s.upper()` (ASCII case mapping, the range the code relies on). -/
def pyUpper (s : String) : String := String.mk (s.data.map Char.toUpper)

/-- Fields of `infra_settings` used by the upload/URL code, each as the
string its f-string interpolation renders. -/
structure InfraSettings where
  MINIO_ACCESS_KEY : String
  MINIO_SECRET_KEY : String
  URL_S3 : String
  BUCKET_NAME : String
deriving DecidableEq

/-- The exceptions `upload_to_minio` catches and re-raises:
`NoCredentialsError` and `ClientError`. -/
inductive S3Error where
  | noCredentials
  | client (msg : String)
deriving DecidableEq

/-- Outcome of the `s3_client.upload_file` network call, an input
abstracting the remote object client. -/
inductive S3Outcome where
  | success
  | noCredentialsError
  | clientError (msg : String)
deriving DecidableEq

/-- `save_output_file(img, image_name, extension)`.

The source computes `filename = os.path.join(date_string, image_name + '.'
+ extension)` and `file_path = os.path.join(output_dir, filename)`, makes
the directory, then — only when `img` is a `str` — moves that file into
place (`shutil.move`; failure is re-raised as a bare `Exception`), and
returns `Path(file_path).as_posix()`.  On an `np.ndarray` input no write
occurs at all: the `isinstance(img, str)` branch is the only effectful one.
`Path(...).as_posix()` is the identity on the already-normalised POSIX
paths produced here. -/
def save_output_file (outputDir today : String) (fs : FS)
    (img : ImgInput) (image_name : String) (extension : String) :
    Except Unit (FS × String) :=
  let date_string := today
  let filename := os_path_join date_string (image_name ++ "." ++ extension)
  let file_path := os_path_join outputDir filename
  match img with
  | .path p =>
      match fsLookup fs p with
      | some bytes => .ok (fsInsert (fsErase fs p) file_path bytes, file_path)
      | none => .error ()
  | .buffer _ => .ok (fs, file_path)

/-- `delete_output_file(filename)`.

Resolves against the output root, logs a warning when the path is not an
existing regular file, then attempts `os.remove`; every `OSError`
(including `FileNotFoundError` on an absent path) is caught, logged, and
reported as `False`.  `removeFails` models environmental `OSError`s
(e.g. permissions) on an existing file. -/
def delete_output_file (outputDir : String) (fs : FS)
    (removeFails : String → Bool) (filename : String) : FS × Bool :=
  let file_path := os_path_join outputDir filename
  match fsLookup fs file_path with
  | none => (fs, false)
  | some _ =>
      if removeFails file_path then (fs, false)
      else (fsErase fs file_path, true)

/-- `upload_to_minio(filename)`.

Derives `s3_key = f"{current_date}/{base_name}"` from today's date and
`filename.split('/')[-1]`, uploads the local file under that key, and on
success returns `f"{infra_settings.URL_S3}/{s3_key}"`; `NoCredentialsError`
and `ClientError` are logged and re-raised.  The function never writes to
the local filesystem, so the `FS` component of the result is the input
state. -/
def upload_to_minio (settings : InfraSettings) (today : String)
    (outputDir : String) (fs : FS) (outcome : S3Outcome)
    (filename : String) : FS × Except S3Error String :=
  let current_date := today
  let base_name := lastSeg (pySplit '/' filename)
  let s3_key := current_date ++ "/" ++ base_name
  let _file_path := os_path_join outputDir filename
  match outcome with
  | .success => (fs, .ok (settings.URL_S3 ++ "/" ++ s3_key))
  | .noCredentialsError => (fs, .error .noCredentials)
  | .clientError m => (fs, .error (.client m))

/-- `output_file_to_base64img(filename)`.

Returns `None` for a `None` filename or when the resolved path is not an
existing regular file; otherwise takes `ext = filename.split('.')[-1]`,
normalises it to `'png'` unless its lowercasing is one of
`['png', 'jpg', 'webp', 'jpeg']`, re-encodes via PIL with
`format=ext.upper()`, and returns the `data:image/<ext>;base64,<payload>`
data URI. -/
def output_file_to_base64img (outputDir : String) (fs : FS)
    (pilEncode : String → Bytes → Bytes) (b64encode : Bytes → String)
    (filename : Option String) : Option String :=
  match filename with
  | none => none
  | some fname =>
    let file_path := os_path_join outputDir fname
    match fsLookup fs file_path with
    | none => none
    | some fileBytes =>
      let ext0 := lastSeg (pySplit '.' fname)
      let ext := if ["png", "jpg", "webp", "jpeg"].contains (pyLower ext0)
                 then ext0 else "png"
      let byte_data := pilEncode (pyUpper ext) fileBytes
      some ("data:image/" ++ ext ++ ";base64," ++ b64encode byte_data)

/-- `output_file_to_bytesimg(filename)`.

Returns `None` for a `None` filename or a missing regular file; otherwise
re-encodes the image as PNG (`format='PNG'`, unconditionally) and returns
the raw bytes. -/
def output_file_to_bytesimg (outputDir : String) (fs : FS)
    (pilEncode : String → Bytes → Bytes)
    (filename : Option String) : Option Bytes :=
  match filename with
  | none => none
  | some fname =>
    let file_path := os_path_join outputDir fname
    match fsLookup fs file_path with
    | none => none
    | some fileBytes => some (pilEncode "PNG" fileBytes)

/-- The module constant `STATIC_SERVER_BASE`. -/
def STATIC_SERVER_BASE : String := "http://127.0.0.1:8888/files/"

/-- `get_file_serve_url(filename)`: `None` for `None`, otherwise
`STATIC_SERVER_BASE + '/'.join(filename.split('/')[-2:])`.  A pure string
derivation: it reads neither the filesystem nor `output_dir`. -/
def get_file_serve_url (filename : Option String) : Option String :=
  match filename with
  | none => none
  | some f => some (STATIC_SERVER_BASE ++ pyJoin "/" (takeLast2 (pySplit '/' f)))

/-- `get_file_s3_url(filename)`: `None` for `None`, otherwise recomputes
`s3_key = f"{today}/{filename.split('/')[-1]}"` and returns
`f"{infra_settings.URL_S3}/{s3_key}"`.  Pure: no filesystem access. -/
def get_file_s3_url (settings : InfraSettings) (today : String)
    (filename : Option String) : Option String :=
  match filename with
  | none => none
  | some f =>
    let current_date := today
    let base_name := lastSeg (pySplit '/' f)
    let s3_key := current_date ++ "/" ++ base_name
    some (settings.URL_S3 ++ "/" ++ s3_key)

/-! ### Helper lemmas -/

/-- Looking up a path right after erasing it finds nothing. -/
theorem fsLookup_fsErase (fs : FS) (p : String) :
    fsLookup (fsErase fs p) p = none := by
  induction fs with
  | nil => rfl
  | cons kv rest ih =>
    obtain ⟨k, v⟩ := kv
    by_cases h : k = p
    · simpa [fsErase, h] using ih
    · simpa [fsErase, fsLookup, h] using ih

/-- A nonempty string has nonempty character data. -/
theorem data_ne_nil_of_ne_empty (s : String) (h : s ≠ "") : s.data ≠ [] := by
  intro hd
  exact h (String.ext (by simpa using hd))

/-- Prefixing a nonempty string leaves its leading character, hence
`startswith('/')`, unchanged. -/
theorem startsWithSlash_append (x y : String) (hx : x.data ≠ []) :
    startsWithSlash (x ++ y) = startsWithSlash x := by
  unfold startsWithSlash
  rw [String.data_append]
  cases hd : x.data with
  | nil => exact absurd hd hx
  | cons c cs => simp

/-- Python `l[-2:]` on a list ending in two given elements returns exactly
those two. -/
theorem takeLast2_append_pair {α : Type} (pre : List α) (d b : α) :
    takeLast2 (pre ++ [d, b]) = [d, b] := by
  unfold takeLast2
  have hlen : (pre ++ [d, b]).length - 2 = pre.length := by
    simp [List.length_append]
  rw [hlen, List.drop_left]

/-! ### Claim theorems -/

/-- C1: the claim says a pixel-buffer input is encoded and written so that
an immediate read-back on the returned path is non-empty; in the code the
`isinstance(img, str)` branch is the only write, so an `np.ndarray` input
writes nothing and read-back on the returned path is `None`.  Evaluated at
the failing input: buffer, name `render1`, format `png`, empty output tree
on 2024-03-22. -/
theorem save_ndarray_writes_nothing :
    save_output_file "/app/outputs/files" "2024-03-22" []
      (ImgInput.buffer ⟨[7, 7, 7]⟩) "render1" "png"
      = Except.ok ([], "/app/outputs/files/2024-03-22/render1.png")
    ∧ output_file_to_bytesimg "/app/outputs/files" [] (fun _ b => b)
        (some "/app/outputs/files/2024-03-22/render1.png") = none
    ∧ output_file_to_base64img "/app/outputs/files" [] (fun _ b => b)
        (fun _ => "payload")
        (some "/app/outputs/files/2024-03-22/render1.png") = none :=
  ⟨rfl, rfl, rfl⟩

/-- C5: a successful `upload_to_minio` derives the remote key from today's
date (the call-time date parameter, independent of any date embedded in
`filename`) and `filename.split('/')[-1]`, and returns
`URL_S3 ++ "/" ++ key`. -/
theorem upload_to_minio_key_and_url (settings : InfraSettings)
    (today outputDir : String) (fs : FS) (filename : String) :
    (upload_to_minio settings today outputDir fs .success filename).2
      = Except.ok (settings.URL_S3 ++ "/"
          ++ (today ++ "/" ++ lastSeg (pySplit '/' filename))) :=
  rfl

/-- C6: on the same calendar day (same `today`), the URL returned by a
successful `upload_to_minio` and the URL returned by `get_file_s3_url`
coincide: both are endpoint ++ "/" ++ today ++ "/" ++ basename. -/
theorem upload_and_s3_url_agree_same_day (settings : InfraSettings)
    (today outputDir : String) (fs : FS) (filename : String) :
    ∃ url,
      (upload_to_minio settings today outputDir fs .success filename).2
        = Except.ok url
      ∧ get_file_s3_url settings today (some filename) = some url :=
  ⟨_, rfl, rfl⟩

/-- C9: `upload_to_minio` leaves the local filesystem unchanged for every
outcome of the network call, and signals credential and client errors to
the caller (re-raised, not swallowed). -/
theorem upload_to_minio_frame_and_errors (settings : InfraSettings)
    (today outputDir : String) (fs : FS) (outcome : S3Outcome)
    (filename : String) :
    (upload_to_minio settings today outputDir fs outcome filename).1 = fs
    ∧ (upload_to_minio settings today outputDir fs
        .noCredentialsError filename).2 = Except.error S3Error.noCredentials
    ∧ ∀ m, (upload_to_minio settings today outputDir fs
        (.clientError m) filename).2 = Except.error (S3Error.client m) :=
  ⟨by cases outcome <;> rfl, rfl, fun _ => rfl⟩

/-- C10: every read-back and URL-derivation operation returns `None` on a
`None` filename, for every filesystem state (so in particular without
consulting the filesystem). -/
theorem none_filename_returns_none (outputDir : String) (fs : FS)
    (settings : InfraSettings) (today : String)
    (pilEncode : String → Bytes → Bytes) (b64encode : Bytes → String) :
    output_file_to_base64img outputDir fs pilEncode b64encode none = none
    ∧ output_file_to_bytesimg outputDir fs pilEncode none = none
    ∧ get_file_serve_url none = none
    ∧ get_file_s3_url settings today none = none :=
  ⟨rfl, rfl, rfl, rfl⟩

/-- C3: read-back absence is silent and deletion is terminal: when the
resolved path is not an existing regular file both converters return
`None` (not an error), and after `delete_output_file` succeeds on a path
both converters on that path return `None`. -/
theorem read_back_absent_or_deleted_returns_none
    (outputDir : String) (fs : FS) (removeFails : String → Bool)
    (pilEncode : String → Bytes → Bytes) (b64encode : Bytes → String)
    (filename : String) :
    (fsLookup fs (os_path_join outputDir filename) = none →
      output_file_to_base64img outputDir fs pilEncode b64encode
        (some filename) = none
      ∧ output_file_to_bytesimg outputDir fs pilEncode (some filename) = none)
    ∧ ∀ fs', delete_output_file outputDir fs removeFails filename
        = (fs', true) →
      output_file_to_base64img outputDir fs' pilEncode b64encode
        (some filename) = none
      ∧ output_file_to_bytesimg outputDir fs' pilEncode
        (some filename) = none := by
  constructor
  · intro h
    exact ⟨by simp [output_file_to_base64img, h],
           by simp [output_file_to_bytesimg, h]⟩
  · intro fs' hdel
    simp only [delete_output_file] at hdel
    split at hdel
    · simp at hdel
    · split at hdel
      · simp at hdel
      · simp only [Prod.mk.injEq] at hdel
        obtain ⟨hfs', -⟩ := hdel
        have hnone : fsLookup fs' (os_path_join outputDir filename) = none := by
          rw [← hfs']; exact fsLookup_fsErase _ _
        exact ⟨by simp [output_file_to_base64img, hnone],
               by simp [output_file_to_bytesimg, hnone]⟩

/-- C3 witness: a concrete absent path returns `None` from both
converters, and both converters return `None` after a successful delete. -/
theorem read_back_absent_or_deleted_returns_none_witness :
    (output_file_to_base64img "/d" [("/d/2024-03-22/a.png", [9])]
      (fun _ b => b) (fun _ => "payload") (some "missing.png") = none
    ∧ output_file_to_bytesimg "/d" [("/d/2024-03-22/a.png", [9])]
      (fun _ b => b) (some "missing.png") = none)
    ∧ (output_file_to_base64img "/d"
        (delete_output_file "/d" [("/d/2024-03-22/a.png", [9])]
          (fun _ => false) "2024-03-22/a.png").1
        (fun _ b => b) (fun _ => "payload") (some "2024-03-22/a.png") = none
    ∧ output_file_to_bytesimg "/d"
        (delete_output_file "/d" [("/d/2024-03-22/a.png", [9])]
          (fun _ => false) "2024-03-22/a.png").1
        (fun _ b => b) (some "2024-03-22/a.png") = none) :=
  ⟨(read_back_absent_or_deleted_returns_none "/d"
      [("/d/2024-03-22/a.png", [9])] (fun _ => false)
      (fun _ b => b) (fun _ => "payload") "missing.png").1 (by decide),
   (read_back_absent_or_deleted_returns_none "/d"
      [("/d/2024-03-22/a.png", [9])] (fun _ => false)
      (fun _ b => b) (fun _ => "payload") "2024-03-22/a.png").2
     (delete_output_file "/d" [("/d/2024-03-22/a.png", [9])]
        (fun _ => false) "2024-03-22/a.png").1 (by decide)⟩

/-- C4: `delete_output_file` reports failure as a boolean instead of
raising: on a path that does not resolve to an existing regular file
(e.g. an already-deleted one) it returns `false` with the filesystem
unchanged; when removal of an existing file fails (the caught `OSError`
case, modelled by `removeFails`) it also returns `false` with the
filesystem unchanged; and a second delete right after a successful one
returns `false`. -/
theorem delete_output_file_reports_failure_as_false
    (outputDir : String) (fs : FS) (removeFails : String → Bool)
    (filename : String) :
    (fsLookup fs (os_path_join outputDir filename) = none →
      delete_output_file outputDir fs removeFails filename = (fs, false))
    ∧ (∀ v, fsLookup fs (os_path_join outputDir filename) = some v →
      removeFails (os_path_join outputDir filename) = true →
      delete_output_file outputDir fs removeFails filename = (fs, false))
    ∧ ∀ fs', delete_output_file outputDir fs removeFails filename
        = (fs', true) →
      delete_output_file outputDir fs' removeFails filename
        = (fs', false) := by
  refine ⟨?_, ?_, ?_⟩
  · intro h
    simp [delete_output_file, h]
  · intro v h hrf
    simp [delete_output_file, h, hrf]
  · intro fs' hdel
    simp only [delete_output_file] at hdel
    split at hdel
    · simp at hdel
    · split at hdel
      · simp at hdel
      · simp only [Prod.mk.injEq] at hdel
        obtain ⟨hfs', -⟩ := hdel
        have hnone : fsLookup fs' (os_path_join outputDir filename) = none := by
          rw [← hfs']; exact fsLookup_fsErase _ _
        simp [delete_output_file, hnone]

/-- C4 witness: deleting an absent concrete path returns `false` leaving
the filesystem alone; a failed removal of an existing concrete file
returns `false` leaving the filesystem alone; and a second delete after a
successful one returns `false`. -/
theorem delete_output_file_reports_failure_as_false_witness :
    delete_output_file "/d" [("/d/2024-03-22/a.png", [9])]
      (fun _ => false) "missing.png"
      = ([("/d/2024-03-22/a.png", [9])], false)
    ∧ delete_output_file "/d" [("/d/2024-03-22/a.png", [9])]
        (fun _ => true) "2024-03-22/a.png"
      = ([("/d/2024-03-22/a.png", [9])], false)
    ∧ delete_output_file "/d"
        (delete_output_file "/d" [("/d/2024-03-22/a.png", [9])]
          (fun _ => false) "2024-03-22/a.png").1
        (fun _ => false) "2024-03-22/a.png"
      = ((delete_output_file "/d" [("/d/2024-03-22/a.png", [9])]
          (fun _ => false) "2024-03-22/a.png").1, false) :=
  ⟨(delete_output_file_reports_failure_as_false "/d"
      [("/d/2024-03-22/a.png", [9])] (fun _ => false) "missing.png").1
      (by decide),
   (delete_output_file_reports_failure_as_false "/d"
      [("/d/2024-03-22/a.png", [9])] (fun _ => true) "2024-03-22/a.png").2.1
     [9] (by decide) (by decide),
   (delete_output_file_reports_failure_as_false "/d"
      [("/d/2024-03-22/a.png", [9])] (fun _ => false) "2024-03-22/a.png").2.2
     (delete_output_file "/d" [("/d/2024-03-22/a.png", [9])]
        (fun _ => false) "2024-03-22/a.png").1 (by decide)⟩

/-- C7: for every non-`None` filename whose `'/'`-split ends in a date
segment and a basename, `get_file_serve_url` is the fixed base URL
concatenated with those last two segments.  The derivation is pure: the
definition takes neither a filesystem state nor the output root. -/
theorem get_file_serve_url_last_two_segments
    (f d b : String) (pre : List String)
    (h : pySplit '/' f = pre ++ [d, b]) :
    get_file_serve_url (some f)
      = some (STATIC_SERVER_BASE ++ (d ++ "/" ++ b)) := by
  simp only [get_file_serve_url, h, takeLast2_append_pair]
  rfl

/-- C7 witness: the serve URL of `2024-03-22/render1.png` is the base URL
plus the date segment and basename. -/
theorem get_file_serve_url_last_two_segments_witness :
    get_file_serve_url (some "2024-03-22/render1.png")
      = some (STATIC_SERVER_BASE ++ ("2024-03-22" ++ "/" ++ "render1.png")) :=
  get_file_serve_url_last_two_segments "2024-03-22/render1.png"
    "2024-03-22" "render1.png" [] (by decide)

/-- C8: on an existing regular file, `output_file_to_base64img` uses the
filename's extension — replaced by `png` when its lowercasing is not one
of `png`, `jpg`, `webp`, `jpeg` — re-encodes with the uppercased format
name, and returns a `data:image/<ext>;base64,<payload>` string, while
`output_file_to_bytesimg` always re-encodes with format `PNG`. -/
theorem to_base64_ext_normalization_and_bytes_png
    (outputDir : String) (fs : FS)
    (pilEncode : String → Bytes → Bytes) (b64encode : Bytes → String)
    (fname : String) (fileBytes : Bytes)
    (hfile : fsLookup fs (os_path_join outputDir fname) = some fileBytes) :
    (["png", "jpg", "webp", "jpeg"].contains
        (pyLower (lastSeg (pySplit '.' fname))) = false →
      output_file_to_base64img outputDir fs pilEncode b64encode (some fname)
        = some ("data:image/" ++ "png" ++ ";base64,"
            ++ b64encode (pilEncode "PNG" fileBytes)))
    ∧ (["png", "jpg", "webp", "jpeg"].contains
        (pyLower (lastSeg (pySplit '.' fname))) = true →
      output_file_to_base64img outputDir fs pilEncode b64encode (some fname)
        = some ("data:image/" ++ lastSeg (pySplit '.' fname) ++ ";base64,"
            ++ b64encode (pilEncode
                (pyUpper (lastSeg (pySplit '.' fname))) fileBytes)))
    ∧ output_file_to_bytesimg outputDir fs pilEncode (some fname)
        = some (pilEncode "PNG" fileBytes) := by
  refine ⟨fun hno => ?_, fun hyes => ?_, ?_⟩
  · have hupper : pyUpper "png" = "PNG" := by decide
    simp only [output_file_to_base64img, hfile]
    rw [if_neg (by simpa using hno), hupper]
  · simp only [output_file_to_base64img, hfile]
    rw [if_pos hyes]
  · simp [output_file_to_bytesimg, hfile]

/-- C8 witness: a `.gif` file (unsupported extension) is normalized to the
`png` format and data URI; a `.png` file keeps its extension; bytes
read-back re-encodes as PNG. -/
theorem to_base64_ext_normalization_and_bytes_png_witness :
    output_file_to_base64img "/d" [("/d/2024-03-22/a.gif", [5])]
      (fun fmt b => if fmt = "PNG" then 0 :: b else 1 :: b) (fun _ => "payload")
      (some "2024-03-22/a.gif")
      = some ("data:image/" ++ "png" ++ ";base64," ++ "payload")
    ∧ output_file_to_bytesimg "/d" [("/d/2024-03-22/a.gif", [5])]
      (fun fmt b => if fmt = "PNG" then 0 :: b else 1 :: b)
      (some "2024-03-22/a.gif")
      = some (0 :: [5]) := by
  constructor
  · exact (to_base64_ext_normalization_and_bytes_png "/d"
      [("/d/2024-03-22/a.gif", [5])]
      (fun fmt b => if fmt = "PNG" then 0 :: b else 1 :: b) (fun _ => "payload")
      "2024-03-22/a.gif" [5] (by decide)).1 (by decide)
  · exact (to_base64_ext_normalization_and_bytes_png "/d"
      [("/d/2024-03-22/a.gif", [5])]
      (fun fmt b => if fmt = "PNG" then 0 :: b else 1 :: b) (fun _ => "payload")
      "2024-03-22/a.gif" [5] (by decide)).2.2

/-- C2 counterexample: in the scenario of the claim (`render1`, `png`,
date 2024-03-22) the code returns `Path(file_path).as_posix()` where
`file_path = os.path.join(output_dir, filename)` — an absolute path — and
that differs from the claimed relative `"2024-03-22/render1.png"`. -/
theorem save_returns_absolute_path_cex :
    save_output_file "/app/outputs/files" "2024-03-22" []
      (ImgInput.buffer ⟨[7, 7, 7]⟩) "render1" "png"
      = Except.ok ([], "/app/outputs/files/2024-03-22/render1.png")
    ∧ ("/app/outputs/files/2024-03-22/render1.png" : String)
        ≠ "2024-03-22/render1.png" :=
  ⟨rfl, by decide⟩

/-- C2 (amended): a successful `save_output_file` returns the absolute
POSIX path `outputDir ++ "/" ++ today ++ "/" ++ name ++ "." ++ ext`
(the output root joined with the date partition and file name), for
well-formed components (root nonempty, not slash-terminated; date nonempty
with no leading/trailing slash; name-dot-extension with no leading
slash). -/
theorem save_output_file_returns_joined_path
    (outputDir today : String) (fs : FS) (img : ImgInput)
    (image_name extension : String) (fs' : FS) (ret : String)
    (h1 : startsWithSlash (image_name ++ "." ++ extension) = false)
    (h2 : today ≠ "")
    (h3 : endsWithSlash today = false)
    (h4 : startsWithSlash today = false)
    (h5 : outputDir ≠ "")
    (h6 : endsWithSlash outputDir = false)
    (hok : save_output_file outputDir today fs img image_name extension
      = Except.ok (fs', ret)) :
    ret = outputDir ++ "/"
      ++ (today ++ "/" ++ (image_name ++ "." ++ extension)) := by
  have hinner : os_path_join today (image_name ++ "." ++ extension)
      = today ++ "/" ++ (image_name ++ "." ++ extension) := by
    unfold os_path_join
    rw [if_neg (by simp [h1]), if_neg h2, if_neg (by simp [h3])]
  have htoday : today.data ≠ [] := data_ne_nil_of_ne_empty today h2
  have hslash : (today ++ "/").data ≠ [] := by
    rw [String.data_append]
    simp
  have houter : startsWithSlash
      (today ++ "/" ++ (image_name ++ "." ++ extension)) = false := by
    rw [startsWithSlash_append (today ++ "/") _ hslash,
        startsWithSlash_append today "/" htoday, h4]
  have hfp : os_path_join outputDir
      (os_path_join today (image_name ++ "." ++ extension))
      = outputDir ++ "/" ++ (today ++ "/" ++ (image_name ++ "." ++ extension)) := by
    rw [hinner]
    unfold os_path_join
    rw [if_neg (by simp [houter]), if_neg h5, if_neg (by simp [h6])]
  simp only [save_output_file] at hok
  cases img with
  | buffer i =>
    simp only [Except.ok.injEq, Prod.mk.injEq] at hok
    rw [← hok.2, hfp]
  | path p =>
    cases hlk : fsLookup fs p with
    | none => simp [hlk] at hok
    | some bytes =>
      simp only [hlk, Except.ok.injEq, Prod.mk.injEq] at hok
      rw [← hok.2, hfp]

/-- C2 witness: at the concrete scenario the amended claim evaluates as
stated. -/
theorem save_output_file_returns_joined_path_witness :
    ("/app/outputs/files/2024-03-22/render1.png" : String)
      = "/app/outputs/files" ++ "/"
        ++ ("2024-03-22" ++ "/" ++ ("render1" ++ "." ++ "png")) :=
  save_output_file_returns_joined_path "/app/outputs/files" "2024-03-22"
    [] (ImgInput.buffer ⟨[7, 7, 7]⟩) "render1" "png"
    [] "/app/outputs/files/2024-03-22/render1.png"
    (by decide) (by decide) (by decide) (by decide) (by decide) (by decide)
    rfl

end FileUtils
